import Mathlib

/-!
Verification development for the water-tank level warning controller
(src/Controlsystem/Waterlevel/watertanklevelwarning.py).

The Python module is shallowly embedded below:
* the alarm state machine `update_alarm_logic` becomes a pure Lean
  function on an explicit configuration record;
* the moving-average sample buffer (a `deque` with `maxlen`) becomes a
  `List Nat` that keeps the most recent `maxlen` appended values;
* the configuration dictionary becomes an association list of JSON-like
  values, and the runtime-tunable map a function `String → JVal`;
* the main loop's measurement and state-evaluation activities become
  explicit state-transition functions on a `MainState` record.

Machine integers are modelled by `Int`/`Nat` (MicroPython integers are
unbounded). Hardware writes (`led.value`, `relais.value`) are recorded
as fields of the explicit state.
-/

/-- The `LevelState` enumeration of the source (OK = 0, LOW = 1, BOTTOM = 2). -/
inductive LevelState where
  | OK
  | LOW
  | BOTTOM
deriving DecidableEq, Repr

/-- The six `runtime_cfg` entries read by `update_alarm_logic`:
`SLOW_BLINK_MS`, `FAST_BLINK_MS`, `CRITICAL_LEVEL_ON_MM`,
`CRITICAL_LEVEL_OFF_MM`, `BOTTOM_LEVEL_ON_MM`, `BOTTOM_LEVEL_OFF_MM`,
bound in the source to the local names used here. -/
structure AlarmCfg where
  slow_blink : Int
  fast_blink : Int
  crit_on : Int
  crit_off : Int
  bot_on : Int
  bot_off : Int
deriving DecidableEq, Repr

/-- The tuple returned by `update_alarm_logic`:
(new state, new led status, next blink/evaluation interval in ms,
desired relay value, 1 = on/safe, 0 = off/unsafe). -/
structure AlarmOutput where
  state : LevelState
  led : Bool
  interval : Int
  relay : Int
deriving DecidableEq, Repr

/-- Embedding of `update_alarm_logic(waterlevel, prev_state, led_status)`
(source lines 176-227).  The source's trailing `else` branch (invalid
`prev_state` integer) is unreachable here because `LevelState` has exactly
the three values OK/LOW/BOTTOM.  The hardware write `led.value(...)` done
in each branch equals the returned led flag and is modelled at the caller
(`evalTick`). -/
def update_alarm_logic (cfg : AlarmCfg) (waterlevel : Option Int)
    (prev_state : LevelState) (led_status : Bool) : AlarmOutput :=
  match waterlevel with
  | none =>
    -- no current data: fail-safe (LED off, relay on)
    ⟨prev_state, false, cfg.slow_blink, 1⟩
  | some lvl =>
    match prev_state with
    | .OK =>
      if lvl ≤ cfg.crit_on then ⟨.LOW, false, cfg.slow_blink, 1⟩
      else ⟨.OK, false, cfg.slow_blink, 1⟩
    | .LOW =>
      if lvl ≤ cfg.bot_on then ⟨.BOTTOM, false, cfg.fast_blink, 0⟩
      else if cfg.crit_off ≤ lvl then ⟨.OK, false, cfg.slow_blink, 1⟩
      else ⟨.LOW, !led_status, cfg.slow_blink, 1⟩
    | .BOTTOM =>
      if cfg.bot_off < lvl then ⟨.LOW, false, cfg.slow_blink, 1⟩
      else ⟨.BOTTOM, true, cfg.slow_blink, 0⟩

/-- The built-in default values of the six alarm parameters
(from the `defaults` dictionary of `load_config`). -/
def defaultCfg : AlarmCfg :=
  ⟨700, 200, 150, 180, 50, 70⟩

/-- One step of the state machine restricted to the components that feed
back into the next evaluation (state and led status). -/
def evalSL (cfg : AlarmCfg) (p : LevelState × Bool) (l : Int) : LevelState × Bool :=
  let o := update_alarm_logic cfg (some l) p.1 p.2
  (o.state, o.led)

/-- In state LOW with a level strictly inside the dead band
(`bot_on < lvl < crit_off`), the machine stays in LOW and only toggles
the led flag. -/
lemma low_dead_band (cfg : AlarmCfg) (led : Bool) (lvl : Int)
    (h1 : cfg.bot_on < lvl) (h2 : lvl < cfg.crit_off) :
    update_alarm_logic cfg (some lvl) .LOW led = ⟨.LOW, !led, cfg.slow_blink, 1⟩ := by
  simp only [update_alarm_logic]
  rw [if_neg (by omega), if_neg (by omega)]

/-- Which next states a single evaluation may produce from a given
previous state (adjacent severities only). -/
def allowedNext : LevelState → LevelState → Prop
  | .OK, s => s = .OK ∨ s = .LOW
  | .LOW, _ => True
  | .BOTTOM, s => s = .BOTTOM ∨ s = .LOW

/-- Claim C3: when the filtered level is unavailable (`None`),
`update_alarm_logic` returns exactly (prev_state, led off, slow-blink
interval, relay = 1): the state is held and the relay output is the safe
value 1. -/
theorem failsafe_missing_data (cfg : AlarmCfg) (prev : LevelState) (led : Bool) :
    update_alarm_logic cfg none prev led = ⟨prev, false, cfg.slow_blink, 1⟩ := rfl

/-- Claim C2: a single evaluation of `update_alarm_logic` only moves
between adjacent severities: from OK to OK or LOW, from LOW to any of
OK, LOW, BOTTOM, and from BOTTOM to BOTTOM or LOW; in particular never
OK to BOTTOM nor BOTTOM to OK. -/
theorem monotonic_state_adjacency (cfg : AlarmCfg) (olvl : Option Int)
    (prev : LevelState) (led : Bool) :
    allowedNext prev (update_alarm_logic cfg olvl prev led).state := by
  cases olvl with
  | none => cases prev <;> simp [update_alarm_logic, allowedNext]
  | some lvl =>
    cases prev <;> simp only [update_alarm_logic, allowedNext] <;>
      split <;> try split
    all_goals simp

/-- Claim C1: under the threshold ordering invariant
`bot_on < bot_off ≤ crit_on < crit_off`, every evaluation from state LOW
with a filtered level strictly between `crit_on` and `crit_off` returns
state LOW with only the led flag toggled (relay stays 1, interval stays
the slow blink); consequently over any sequence of such levels the state
never leaves LOW. -/
theorem hysteresis_no_chatter (cfg : AlarmCfg) (led : Bool) (lvl : Int)
    (ho1 : cfg.bot_on < cfg.bot_off) (ho2 : cfg.bot_off ≤ cfg.crit_on)
    (_ho3 : cfg.crit_on < cfg.crit_off)
    (hlo : cfg.crit_on < lvl) (hhi : lvl < cfg.crit_off) :
    update_alarm_logic cfg (some lvl) .LOW led = ⟨.LOW, !led, cfg.slow_blink, 1⟩ ∧
    ∀ (ls : List Int), (∀ l ∈ ls, cfg.crit_on < l ∧ l < cfg.crit_off) →
      (ls.foldl (evalSL cfg) (.LOW, led)).1 = .LOW := by
  constructor
  · exact low_dead_band cfg led lvl (by omega) hhi
  · intro ls
    induction ls generalizing led with
    | nil => intro _; rfl
    | cons l tl ih =>
      intro hmem
      have hb := hmem l (List.mem_cons_self l tl)
      have hstep : evalSL cfg (.LOW, led) l = (.LOW, !led) := by
        simp [evalSL, low_dead_band cfg led l (by omega) hb.2]
      rw [List.foldl_cons, hstep]
      exact ih (!led) (fun x hx => hmem x (List.mem_cons_of_mem l hx))

/-- Witness for C1 at the default configuration, level 160, led off. -/
theorem hysteresis_no_chatter_wit :
    defaultCfg.bot_on < defaultCfg.bot_off ∧ defaultCfg.bot_off ≤ defaultCfg.crit_on ∧
    defaultCfg.crit_on < defaultCfg.crit_off ∧ defaultCfg.crit_on < 160 ∧
    (160 : Int) < defaultCfg.crit_off ∧
    update_alarm_logic defaultCfg (some 160) .LOW false = ⟨.LOW, true, 700, 1⟩ :=
  ⟨by decide, by decide, by decide, by decide, by decide,
    (hysteresis_no_chatter defaultCfg false 160 (by decide) (by decide)
      (by decide) (by decide) (by decide)).1⟩

/-- Claim C9 (implicit): with an available level the desired relay value
is 0 exactly when the returned state is BOTTOM; with the level missing
this equivalence fails: the held state can be BOTTOM while the relay
value returned is 1. -/
theorem relay_state_correspondence (cfg : AlarmCfg) (led : Bool) :
    (∀ (lvl : Int) (prev : LevelState),
      (update_alarm_logic cfg (some lvl) prev led).relay = 0 ↔
      (update_alarm_logic cfg (some lvl) prev led).state = .BOTTOM) ∧
    ((update_alarm_logic cfg none .BOTTOM led).state = .BOTTOM ∧
      (update_alarm_logic cfg none .BOTTOM led).relay = 1) := by
  refine ⟨fun lvl prev => ?_, rfl, rfl⟩
  cases prev <;> simp only [update_alarm_logic] <;>
    split <;> try split
  all_goals simp

/-- Claim C10 (implicit): the fast-blink interval is returned exactly on
the LOW-to-BOTTOM entry (level at or below `bot_on` from LOW); every
other branch, in particular staying in BOTTOM (level at or below
`bot_off`), returns the slow-blink interval, with the led forced
steadily on in the BOTTOM-stay branch. -/
theorem bottom_interval_slow (cfg : AlarmCfg) (lvl : Int) (led : Bool) :
    (∀ (olvl : Option Int) (prev : LevelState),
      (update_alarm_logic cfg olvl prev led).interval =
        match olvl, prev with
        | some l, .LOW => if l ≤ cfg.bot_on then cfg.fast_blink else cfg.slow_blink
        | _, _ => cfg.slow_blink) ∧
    (lvl ≤ cfg.bot_off →
      update_alarm_logic cfg (some lvl) .BOTTOM led =
        ⟨.BOTTOM, true, cfg.slow_blink, 0⟩) := by
  constructor
  · intro olvl prev
    cases olvl with
    | none => cases prev <;> rfl
    | some l =>
      cases prev <;> simp only [update_alarm_logic] <;>
        split <;> try split
      all_goals simp_all
  · intro h
    simp only [update_alarm_logic]
    rw [if_neg (by omega)]

/-- Witness for C10 at the default configuration, level 60 from BOTTOM. -/
theorem bottom_interval_slow_wit :
    (60 : Int) ≤ defaultCfg.bot_off ∧
    update_alarm_logic defaultCfg (some 60) .BOTTOM false =
      ⟨.BOTTOM, true, defaultCfg.slow_blink, 0⟩ :=
  ⟨by decide, (bottom_interval_slow defaultCfg 60 false).2 (by decide)⟩

/-- Claim C4 counterexample: with the filtered level unavailable the
desired relay value returned is 1 (safe), not the unsafe value 0 that
the claim asserts. -/
theorem unsafe_bias_counterexample :
    (update_alarm_logic defaultCfg none .OK false).relay = 1 ∧
    (update_alarm_logic defaultCfg none .OK false).relay ≠ 0 := by
  exact ⟨rfl, by decide⟩

/-- Claim C4 (amended): whenever the filtered level passed to
`update_alarm_logic` is `None`, the desired relay output is the SAFE
value 1 (the state held); the unsafe bias applies to the escalation path
after repeated sensor failures, not to the state machine's missing-data
rule. -/
theorem missing_data_relay_safe (cfg : AlarmCfg) (prev : LevelState) (led : Bool) :
    (update_alarm_logic cfg none prev led).relay = 1 := rfl

/-! ### The moving-average filter (`samples` deque and `get_filtered_level`) -/

/-- Appending to the `samples` deque (`deque([], maxlen=N)`): the buffer
keeps the `N` most recent appended values, discarding the oldest element
when full. -/
def pushSample (N : Nat) (buf : List Nat) (x : Nat) : List Nat :=
  (buf ++ [x]).drop (buf.length + 1 - N)

/-- Pushing a whole sequence of measured levels, oldest first. -/
def pushAll (N : Nat) (buf : List Nat) (xs : List Nat) : List Nat :=
  xs.foldl (pushSample N) buf

/-- Embedding of `get_filtered_level` (source lines 167-174): `None` on
an empty buffer, otherwise the floor average `sum(samples) // len(samples)`. -/
def get_filtered_level (samples : List Nat) : Option Nat :=
  if samples = [] then none
  else some (samples.sum / samples.length)

/-- Pushing a sequence into a buffer that is within capacity leaves
exactly the most recent `N` of the concatenated values. -/
lemma pushAll_drop (N : Nat) :
    ∀ (xs buf : List Nat), buf.length ≤ N →
      pushAll N buf xs = (buf ++ xs).drop (buf.length + xs.length - N) := by
  intro xs
  induction xs with
  | nil =>
    intro buf h
    simp [pushAll, Nat.sub_eq_zero_of_le h]
  | cons x tl ih =>
    intro buf h
    have hk : buf.length + 1 - N ≤ (buf ++ [x]).length := by
      simp
    have hlen : (pushSample N buf x).length ≤ N := by
      simp [pushSample]
      omega
    have step : pushAll N buf (x :: tl) = pushAll N (pushSample N buf x) tl := rfl
    rw [step, ih _ hlen]
    rw [pushSample, List.length_drop]
    rw [← List.drop_append_of_le_length hk, List.drop_drop]
    have harr : buf ++ x :: tl = (buf ++ [x]) ++ tl := by simp
    rw [harr]
    congr 1
    simp only [List.length_append, List.length_cons, List.length_nil]
    omega

/-- Claim C6: pushing `N` or fewer levels into the boot-capacity-`N`
buffer yields the exact floor mean of all pushed values; pushing more
than `N` evicts the oldest values and yields the floor mean of the most
recent `N`. -/
theorem filter_correctness (N : Nat) (xs : List Nat) :
    (xs ≠ [] → xs.length ≤ N →
      get_filtered_level (pushAll N [] xs) = some (xs.sum / xs.length)) ∧
    (0 < N → N < xs.length →
      get_filtered_level (pushAll N [] xs) =
        some ((xs.drop (xs.length - N)).sum / N)) := by
  have hbase : pushAll N [] xs = xs.drop (xs.length - N) := by
    have := pushAll_drop N xs [] (by simp)
    simpa using this
  constructor
  · intro hne hle
    rw [hbase, Nat.sub_eq_zero_of_le hle, List.drop_zero]
    simp [get_filtered_level, hne]
  · intro hN hlt
    have hlen : (xs.drop (xs.length - N)).length = N := by
      rw [List.length_drop]; omega
    have hne : xs.drop (xs.length - N) ≠ [] := by
      intro hcon
      rw [hcon] at hlen
      simp at hlen
      omega
    rw [hbase]
    simp [get_filtered_level, hne, hlen]

/-- Witness for C6: three values with window 3 (floor mean of all), and
the same three values with window 2 (floor mean of the last two). -/
theorem filter_correctness_wit :
    get_filtered_level (pushAll 3 [] [4, 5, 7]) =
      some (([4, 5, 7] : List Nat).sum / ([4, 5, 7] : List Nat).length) ∧
    get_filtered_level (pushAll 2 [] [4, 5, 7]) =
      some ((([4, 5, 7] : List Nat).drop (([4, 5, 7] : List Nat).length - 2)).sum / 2) :=
  ⟨(filter_correctness 3 [4, 5, 7]).1 (by decide) (by decide),
    (filter_correctness 2 [4, 5, 7]).2 (by decide) (by decide)⟩

/-! ### Configuration: `load_config` and `update_runtime_cfg` -/

/-- JSON-like values as parsed from `config.json` by `ujson.load`. -/
inductive JVal where
  | num (n : Int)
  | str (s : String)
  | boolean (b : Bool)
  | null
deriving DecidableEq, Repr

/-- First-match lookup in an association-list model of a dictionary. -/
def lookupJ : List (String × JVal) → String → Option JVal
  | [], _ => none
  | (k', v) :: rest, k => if k = k' then some v else lookupJ rest k

/-- The `defaults` dictionary of `load_config` (source lines 29-42). -/
def defaults : List (String × JVal) :=
  [ ("TANK_HEIGHT_MM", JVal.num 196),
    ("SENSOR_TO_WATER_MIN_MM", JVal.num 30),
    ("MOVING_AVG_N", JVal.num 10),
    ("CRITICAL_LEVEL_ON_MM", JVal.num 150),
    ("CRITICAL_LEVEL_OFF_MM", JVal.num 180),
    ("BOTTOM_LEVEL_ON_MM", JVal.num 50),
    ("BOTTOM_LEVEL_OFF_MM", JVal.num 70),
    ("LED_PIN", JVal.num 15),
    ("RELAY_PIN", JVal.num 16),
    ("SLOW_BLINK_MS", JVal.num 700),
    ("FAST_BLINK_MS", JVal.num 200),
    ("MEASURE_INTERVAL_MS", JVal.num 1000) ]

/-- Embedding of `load_config` (source lines 24-53).  The input is the
outcome of reading and parsing the file: `none` on any read or parse
failure (the `except` branch returns the defaults), `some doc` on a
successfully parsed dictionary.  The source then inserts the default
value for every default key absent from `doc` and returns the dictionary;
present keys keep the parsed value.  The dictionary is modelled as an
association list in which entries of `doc` shadow the appended defaults. -/
def load_config (parsed : Option (List (String × JVal))) : List (String × JVal) :=
  match parsed with
  | none => defaults
  | some config =>
    config ++ defaults.filter (fun kv => (lookupJ config kv.1).isNone)

lemma lookupJ_append_some {a b : List (String × JVal)} {k : String} {v : JVal}
    (h : lookupJ a k = some v) : lookupJ (a ++ b) k = some v := by
  induction a with
  | nil => simp [lookupJ] at h
  | cons kv rest ih =>
    obtain ⟨k', w⟩ := kv
    simp only [lookupJ, List.cons_append] at h ⊢
    by_cases hk : k = k'
    · simpa [hk] using h
    · rw [if_neg hk] at h ⊢
      exact ih h

lemma lookupJ_append_none {a b : List (String × JVal)} {k : String}
    (h : lookupJ a k = none) : lookupJ (a ++ b) k = lookupJ b k := by
  induction a with
  | nil => simp
  | cons kv rest ih =>
    obtain ⟨k', w⟩ := kv
    simp only [lookupJ, List.cons_append] at h ⊢
    by_cases hk : k = k'
    · simp [hk] at h
    · rw [if_neg hk] at h ⊢
      exact ih h

lemma lookupJ_filter_missing (doc : List (String × JVal)) (k : String)
    (hdoc : lookupJ doc k = none) :
    ∀ (l : List (String × JVal)),
      lookupJ (l.filter (fun kv => (lookupJ doc kv.1).isNone)) k = lookupJ l k := by
  intro l
  induction l with
  | nil => rfl
  | cons kv rest ih =>
    obtain ⟨k', w⟩ := kv
    by_cases hk : k = k'
    · subst hk
      have hp : (lookupJ doc k).isNone = true := by simp [hdoc]
      simp [List.filter_cons, hp, lookupJ]
    · by_cases hp : (lookupJ doc k').isNone = true
      · simp [List.filter_cons, hp, lookupJ, hk, ih]
      · simp [List.filter_cons, hp, lookupJ, hk, ih]

/-- Claim C7 counterexample: a successfully parsed document in which a
recognized field is present but malformed (a string where an integer is
expected) is NOT substituted by the built-in default: the malformed
value is returned as-is. -/
theorem load_config_malformed_kept :
    lookupJ (load_config (some [("TANK_HEIGHT_MM", JVal.str "oops")])) "TANK_HEIGHT_MM" =
      some (JVal.str "oops") ∧
    lookupJ defaults "TANK_HEIGHT_MM" = some (JVal.num 196) ∧
    JVal.str "oops" ≠ JVal.num 196 := by
  refine ⟨rfl, rfl, by decide⟩

/-- Claim C7 (amended): `load_config` never fails boot.  On total read
or parse failure it returns exactly the built-in defaults; for every
successfully parsed document, each recognized field MISSING from the
document is substituted by its built-in default, while every field
present in the document is returned with its parsed value as-is, even
when malformed. -/
theorem load_config_defaulting :
    load_config none = defaults ∧
    (∀ (doc : List (String × JVal)) (k : String),
      lookupJ doc k = none →
      lookupJ (load_config (some doc)) k = lookupJ defaults k) ∧
    (∀ (doc : List (String × JVal)) (k : String) (v : JVal),
      lookupJ doc k = some v →
      lookupJ (load_config (some doc)) k = some v) := by
  refine ⟨rfl, ?_, ?_⟩
  · intro doc k hmiss
    rw [load_config, lookupJ_append_none hmiss,
      lookupJ_filter_missing doc k hmiss defaults]
  · intro doc k v hsome
    rw [load_config]
    exact lookupJ_append_some hsome

/-- Witness for C7: a document carrying only a modified tank height gets
the default for the missing key `MOVING_AVG_N` and keeps its own parsed
value for `TANK_HEIGHT_MM`. -/
theorem load_config_defaulting_wit :
    lookupJ (load_config (some [("TANK_HEIGHT_MM", JVal.num 300)])) "MOVING_AVG_N" =
      lookupJ defaults "MOVING_AVG_N" ∧
    lookupJ (load_config (some [("TANK_HEIGHT_MM", JVal.num 300)])) "TANK_HEIGHT_MM" =
      some (JVal.num 300) :=
  ⟨load_config_defaulting.2.1 [("TANK_HEIGHT_MM", JVal.num 300)] "MOVING_AVG_N" rfl,
    load_config_defaulting.2.2 [("TANK_HEIGHT_MM", JVal.num 300)] "TANK_HEIGHT_MM"
      (JVal.num 300) rfl⟩

/-- The whitelist of runtime-tunable parameters (source lines 95-105).
`MOVING_AVG_N`, `LED_PIN` and `RELAY_PIN` are deliberately absent:
they are boot-only. -/
def RUNTIME_KEYS : List String :=
  [ "TANK_HEIGHT_MM",
    "SENSOR_TO_WATER_MIN_MM",
    "CRITICAL_LEVEL_ON_MM",
    "CRITICAL_LEVEL_OFF_MM",
    "BOTTOM_LEVEL_ON_MM",
    "BOTTOM_LEVEL_OFF_MM",
    "SLOW_BLINK_MS",
    "FAST_BLINK_MS",
    "MEASURE_INTERVAL_MS" ]

/-- One iteration of the `for k in RUNTIME_KEYS` loop of
`update_runtime_cfg`: if `k` is present in the parsed file and its value
differs from the current runtime value, store it and record the key. -/
def rtStep (new_cfg : List (String × JVal))
    (acc : (String → JVal) × List String) (k : String) :
    (String → JVal) × List String :=
  match lookupJ new_cfg k with
  | some v => if v = acc.1 k then acc else (Function.update acc.1 k v, acc.2 ++ [k])
  | none => acc

/-- Embedding of `update_runtime_cfg(new_cfg)` (source lines 109-120).
The mutable `runtime_cfg` dictionary is modelled as a total map
`String → JVal`; the function returns the updated map together with the
list of keys actually changed, in whitelist order. -/
def update_runtime_cfg (new_cfg : List (String × JVal)) (rt : String → JVal) :
    (String → JVal) × List String :=
  RUNTIME_KEYS.foldl (rtStep new_cfg) (rt, [])

/-- Whether the loop will record key `k` as changed: present in the
parsed file with a value differing from the current runtime value. -/
def changedB (new_cfg : List (String × JVal)) (rt : String → JVal) (k : String) : Bool :=
  match lookupJ new_cfg k with
  | some v => if v = rt k then false else true
  | none => false

/-- Invariant of the `update_runtime_cfg` loop over any duplicate-free
key list: the recorded keys are exactly those whose parsed value differs
from the original runtime value, keys outside the list are untouched,
and keys inside the list hold the parsed value when changed and the
original value otherwise. -/
lemma rtFoldl_spec (new_cfg : List (String × JVal)) (rt0 : String → JVal) :
    ∀ (keys : List String) (f : String → JVal) (ch : List String),
      keys.Nodup → (∀ k ∈ keys, f k = rt0 k) →
      (keys.foldl (rtStep new_cfg) (f, ch)).2 =
          ch ++ keys.filter (changedB new_cfg rt0) ∧
      (∀ k, k ∉ keys → (keys.foldl (rtStep new_cfg) (f, ch)).1 k = f k) ∧
      (∀ k ∈ keys, changedB new_cfg rt0 k = false →
          (keys.foldl (rtStep new_cfg) (f, ch)).1 k = f k) ∧
      (∀ k ∈ keys, changedB new_cfg rt0 k = true →
          (keys.foldl (rtStep new_cfg) (f, ch)).1 k = (lookupJ new_cfg k).getD (rt0 k)) := by
  intro keys
  induction keys with
  | nil => intro f ch _ _; simp
  | cons k0 rest ih =>
    intro f ch hnd hagree
    have hk0r : k0 ∉ rest := (List.nodup_cons.mp hnd).1
    have hndr : rest.Nodup := (List.nodup_cons.mp hnd).2
    have hf0 : f k0 = rt0 k0 := hagree k0 (List.mem_cons_self k0 rest)
    have hfoldc : (k0 :: rest).foldl (rtStep new_cfg) (f, ch) =
        rest.foldl (rtStep new_cfg) (rtStep new_cfg (f, ch) k0) := rfl
    rcases hlk : lookupJ new_cfg k0 with _ | v
    · -- key absent from the parsed file: loop body is a no-op
      have hch0 : changedB new_cfg rt0 k0 = false := by simp [changedB, hlk]
      have hstep : rtStep new_cfg (f, ch) k0 = (f, ch) := by simp [rtStep, hlk]
      obtain ⟨ih1, ih2, ih3, ih4⟩ :=
        ih f ch hndr (fun k hk => hagree k (List.mem_cons_of_mem k0 hk))
      rw [hfoldc, hstep]
      refine ⟨?_, ?_, ?_, ?_⟩
      · rw [ih1, List.filter_cons_of_neg (by simp [hch0])]
      · intro k hk
        exact ih2 k (fun hmem => hk (List.mem_cons_of_mem k0 hmem))
      · intro k hk hc
        rcases List.mem_cons.mp hk with hk | hk
        · subst hk; exact ih2 k hk0r
        · exact ih3 k hk hc
      · intro k hk hc
        rcases List.mem_cons.mp hk with hk | hk
        · subst hk; rw [hch0] at hc; cases hc
        · exact ih4 k hk hc
    · by_cases hv : v = f k0
      · -- present but equal to the current value: loop body is a no-op
        have hch0 : changedB new_cfg rt0 k0 = false := by
          simp [changedB, hlk, hv, hf0]
        have hstep : rtStep new_cfg (f, ch) k0 = (f, ch) := by
          simp [rtStep, hlk, hv]
        obtain ⟨ih1, ih2, ih3, ih4⟩ :=
          ih f ch hndr (fun k hk => hagree k (List.mem_cons_of_mem k0 hk))
        rw [hfoldc, hstep]
        refine ⟨?_, ?_, ?_, ?_⟩
        · rw [ih1, List.filter_cons_of_neg (by simp [hch0])]
        · intro k hk
          exact ih2 k (fun hmem => hk (List.mem_cons_of_mem k0 hmem))
        · intro k hk hc
          rcases List.mem_cons.mp hk with hk | hk
          · subst hk; exact ih2 k hk0r
          · exact ih3 k hk hc
        · intro k hk hc
          rcases List.mem_cons.mp hk with hk | hk
          · subst hk; rw [hch0] at hc; cases hc
          · exact ih4 k hk hc
      · -- present and different: update the map and record the key
        have hch0 : changedB new_cfg rt0 k0 = true := by
          simp [changedB, hlk]
          rw [← hf0]
          exact hv
        have hstep : rtStep new_cfg (f, ch) k0 =
            (Function.update f k0 v, ch ++ [k0]) := by
          simp [rtStep, hlk, hv]
        have hagree2 : ∀ k ∈ rest, Function.update f k0 v k = rt0 k := by
          intro k hk
          have hne : k ≠ k0 := fun hkk => hk0r (hkk ▸ hk)
          rw [Function.update_noteq hne]
          exact hagree k (List.mem_cons_of_mem k0 hk)
        obtain ⟨ih1, ih2, ih3, ih4⟩ :=
          ih (Function.update f k0 v) (ch ++ [k0]) hndr hagree2
        rw [hfoldc, hstep]
        refine ⟨?_, ?_, ?_, ?_⟩
        · rw [ih1, List.filter_cons_of_pos (by simp [hch0])]
          simp
        · intro k hk
          have hne : k ≠ k0 := by
            rintro rfl; exact hk (List.mem_cons_self k rest)
          rw [ih2 k (fun hmem => hk (List.mem_cons_of_mem k0 hmem))]
          exact Function.update_noteq hne v f
        · intro k hk hc
          rcases List.mem_cons.mp hk with hke | hkr
          · subst hke; rw [hch0] at hc; cases hc
          · have hne : k ≠ k0 := by
              rintro rfl; exact hk0r hkr
            rw [ih3 k hkr hc]
            exact Function.update_noteq hne v f
        · intro k hk hc
          rcases List.mem_cons.mp hk with hk | hk
          · subst hk
            rw [ih2 k hk0r, Function.update_same, hlk]
            rfl
          · exact ih4 k hk hc

/-- Claim C8: `update_runtime_cfg` changes exactly the whitelisted keys
present in the payload with a differing value and returns exactly that
list; all keys outside the whitelist (such as `MOVING_AVG_N`, `LED_PIN`,
`RELAY_PIN`) are left untouched even when present in the payload, and a
payload modifying only `MOVING_AVG_N` yields zero changed keys. -/
theorem config_whitelist_isolation (new_cfg : List (String × JVal)) (rt : String → JVal) :
    (update_runtime_cfg new_cfg rt).2 = RUNTIME_KEYS.filter (changedB new_cfg rt) ∧
    (∀ k, k ∉ RUNTIME_KEYS → (update_runtime_cfg new_cfg rt).1 k = rt k) ∧
    (∀ k ∈ RUNTIME_KEYS, changedB new_cfg rt k = false →
      (update_runtime_cfg new_cfg rt).1 k = rt k) ∧
    (∀ k ∈ RUNTIME_KEYS, changedB new_cfg rt k = true →
      (update_runtime_cfg new_cfg rt).1 k = (lookupJ new_cfg k).getD (rt k)) ∧
    (update_runtime_cfg [("MOVING_AVG_N", JVal.num 5)] rt).2 = [] := by
  have hnd : RUNTIME_KEYS.Nodup := by decide
  obtain ⟨h1, h2, h3, h4⟩ :=
    rtFoldl_spec new_cfg rt RUNTIME_KEYS rt [] hnd (fun _ _ => rfl)
  refine ⟨by simpa [update_runtime_cfg] using h1, h2, h3, h4, ?_⟩
  obtain ⟨g1, _, _, _⟩ :=
    rtFoldl_spec [("MOVING_AVG_N", JVal.num 5)] rt RUNTIME_KEYS rt [] hnd (fun _ _ => rfl)
  rw [update_runtime_cfg, g1]
  rfl

/-- Witness for C8: with a payload touching one whitelisted key and one
boot-only key, the boot-only keys stay untouched and the unmentioned
whitelisted key keeps its value. -/
theorem config_whitelist_isolation_wit :
    "MOVING_AVG_N" ∉ RUNTIME_KEYS ∧
    (update_runtime_cfg
        [("CRITICAL_LEVEL_ON_MM", JVal.num 140), ("MOVING_AVG_N", JVal.num 5)]
        (fun _ => JVal.num 0)).1 "MOVING_AVG_N" = JVal.num 0 ∧
    "SLOW_BLINK_MS" ∈ RUNTIME_KEYS ∧
    changedB [("CRITICAL_LEVEL_ON_MM", JVal.num 140), ("MOVING_AVG_N", JVal.num 5)]
        (fun _ => JVal.num 0) "SLOW_BLINK_MS" = false ∧
    (update_runtime_cfg
        [("CRITICAL_LEVEL_ON_MM", JVal.num 140), ("MOVING_AVG_N", JVal.num 5)]
        (fun _ => JVal.num 0)).1 "SLOW_BLINK_MS" = JVal.num 0 ∧
    (update_runtime_cfg [("MOVING_AVG_N", JVal.num 5)] (fun _ => JVal.num 0)).2 = [] :=
  ⟨by decide,
    (config_whitelist_isolation
        [("CRITICAL_LEVEL_ON_MM", JVal.num 140), ("MOVING_AVG_N", JVal.num 5)]
        (fun _ => JVal.num 0)).2.1 "MOVING_AVG_N" (by decide),
    by decide,
    by rfl,
    (config_whitelist_isolation
        [("CRITICAL_LEVEL_ON_MM", JVal.num 140), ("MOVING_AVG_N", JVal.num 5)]
        (fun _ => JVal.num 0)).2.2.1 "SLOW_BLINK_MS" (by decide) (by rfl),
    (config_whitelist_isolation [] (fun _ => JVal.num 0)).2.2.2.2⟩

/-! ### The scheduler's measurement and state-evaluation activities -/

/-- The mutable state of `main` (source lines 239-246) together with the
hardware output pins: `samples` buffer, `last_valid_level`,
`error_count`, `relais_actief` (None before the first relay write),
the led pin value last written, and the state-machine variables
`level_state`, `led_status`, `blink_interval`.  The pure timer
bookkeeping (`last_measure`, `last_blink`, `last_cfg_check`) is not
modelled: each activity below is the body that runs when its timer
fires. -/
structure MainState where
  samples : List Nat
  last_valid_level : Option Nat
  error_count : Nat
  relais_actief : Option Int
  led_out : Int
  level_state : LevelState
  led_status : Bool
  blink_interval : Int
deriving Repr

/-- The measurement activity of the main loop (source lines 272-290),
run with the sensor outcome `d` (`none` = timeout or out-of-range).
On success: compute `waterlevel = max(0, TANK_HEIGHT_MM - d)`, push it,
store the filtered average, reset the consecutive-error counter.
On failure: increment the counter; at 5 or more consecutive errors force
the led pin on and, if the relay is not already off, force it to the
unsafe value 0. -/
def measureTick (th : Int) (N : Nat) (d : Option Int) (st : MainState) : MainState :=
  match d with
  | some dv =>
    let wl : Nat := (th - dv).toNat
    let s2 := pushSample N st.samples wl
    { st with samples := s2, last_valid_level := get_filtered_level s2, error_count := 0 }
  | none =>
    let st2 := { st with error_count := st.error_count + 1 }
    if 5 ≤ st2.error_count then
      let st3 := { st2 with led_out := 1 }
      if st3.relais_actief ≠ some 0 then { st3 with relais_actief := some 0 } else st3
    else st2

/-- The state-evaluation activity of the main loop (source lines
293-302): run the alarm state machine on the last filtered level, apply
the led value (the source writes `led.value(...)` inside
`update_alarm_logic`, always equal to the returned led flag), and write
the relay only when the desired value differs from the last applied
one. -/
def evalTick (cfg : AlarmCfg) (st : MainState) : MainState :=
  let o := update_alarm_logic cfg (st.last_valid_level.map Int.ofNat)
    st.level_state st.led_status
  let st2 := { st with
    level_state := o.state
    led_status := o.led
    blink_interval := o.interval
    led_out := if o.led then 1 else 0 }
  if st2.relais_actief ≠ some o.relay then { st2 with relais_actief := some o.relay }
  else st2

/-- Claim C5: starting from any state with a zeroed consecutive-error
counter, five consecutive failed sensor readings force the indicator led
pin on and the relay to the unsafe value 0, regardless of the last known
filtered level and of the state machine's variables; a single successful
measurement resets the error counter to 0 from any state; and every
state-evaluation tick drives the applied relay value to exactly the
state machine's desired output. -/
theorem escalation_and_recovery (cfg : AlarmCfg) (th : Int) (N : Nat)
    (st : MainState) (h : st.error_count = 0) :
    ((measureTick th N none (measureTick th N none (measureTick th N none
        (measureTick th N none (measureTick th N none st))))).error_count = 5 ∧
      (measureTick th N none (measureTick th N none (measureTick th N none
        (measureTick th N none (measureTick th N none st))))).led_out = 1 ∧
      (measureTick th N none (measureTick th N none (measureTick th N none
        (measureTick th N none (measureTick th N none st))))).relais_actief = some 0) ∧
    (∀ (st2 : MainState) (dv : Int), (measureTick th N (some dv) st2).error_count = 0) ∧
    (∀ st2 : MainState, (evalTick cfg st2).relais_actief =
      some (update_alarm_logic cfg (st2.last_valid_level.map Int.ofNat)
        st2.level_state st2.led_status).relay) := by
  refine ⟨?_, fun st2 dv => rfl, fun st2 => ?_⟩
  · have e1 : measureTick th N none st = { st with error_count := 1 } := by
      simp [measureTick, h]
    have e2 : measureTick th N none { st with error_count := 1 } =
        { st with error_count := 2 } := by
      simp [measureTick]
    have e3 : measureTick th N none { st with error_count := 2 } =
        { st with error_count := 3 } := by
      simp [measureTick]
    have e4 : measureTick th N none { st with error_count := 3 } =
        { st with error_count := 4 } := by
      simp [measureTick]
    rw [e1, e2, e3, e4]
    by_cases hr : st.relais_actief = some 0 <;>
      simp [measureTick, hr]
  · by_cases hr : st2.relais_actief =
        some (update_alarm_logic cfg (st2.last_valid_level.map Int.ofNat)
          st2.level_state st2.led_status).relay <;>
      simp [evalTick, hr]

/-- A concrete boot state: empty buffer, no valid level, no errors,
relay never written, led off, state OK, slow blink interval. -/
def bootState : MainState :=
  ⟨[], none, 0, none, 0, .OK, false, 700⟩

/-- Witness for C5 at the boot state with the default configuration. -/
theorem escalation_and_recovery_wit :
    bootState.error_count = 0 ∧
    ((measureTick 196 10 none (measureTick 196 10 none (measureTick 196 10 none
        (measureTick 196 10 none (measureTick 196 10 none bootState))))).error_count = 5 ∧
      (measureTick 196 10 none (measureTick 196 10 none (measureTick 196 10 none
        (measureTick 196 10 none (measureTick 196 10 none bootState))))).led_out = 1 ∧
      (measureTick 196 10 none (measureTick 196 10 none (measureTick 196 10 none
        (measureTick 196 10 none (measureTick 196 10 none bootState))))).relais_actief =
          some 0) :=
  ⟨rfl, (escalation_and_recovery defaultCfg 196 10 bootState rfl).1⟩
